import Mathlib

/-!
Verification development for the `react-flexi-window` widget
(`src/lib/WindowComponent.jsx` and its feature-complete revision).

The widget is a draggable, resizable window panel.  The interaction core
consists of:
  * `handleInteractionStart` — creates a transient interaction session on
    pointer-down (rejecting drags that originate on interactive elements);
  * `handleInteractionMove` — converts a pointer move into a new
    position/size under min/max and optional viewport-boundary constraints;
  * the reconcile effect — re-applies max-size and boundary constraints
    when the viewport or the bound configuration changes;
  * the touch-hold pre-stage — a 200 ms hold timer with a 10 px movement
    threshold disambiguating touch drags from scrolls;
  * the style resolver — pure lookup of Tailwind-style tokens.

Pixel coordinates and deltas are modelled as `Int`; the only arithmetic
the source performs on them is `+`, `-`, `Math.min` and `Math.max`, which
are exact in this model.
-/

namespace FlexiWindow

/-- The nine interaction kinds: `'drag'` plus the 8 resize handle types
(`'resize-top'`, …, `'resize-bottom-right'`). -/
inductive InteractionType where
  | drag
  | resizeTop
  | resizeBottom
  | resizeLeft
  | resizeRight
  | resizeTopLeft
  | resizeTopRight
  | resizeBottomLeft
  | resizeBottomRight
  deriving DecidableEq, Repr

namespace InteractionType

/-- `type.includes('right')` on the interaction-type string. -/
def touchesRight : InteractionType → Bool
  | resizeRight | resizeTopRight | resizeBottomRight => true
  | _ => false

/-- `type.includes('left')` on the interaction-type string. -/
def touchesLeft : InteractionType → Bool
  | resizeLeft | resizeTopLeft | resizeBottomLeft => true
  | _ => false

/-- `type.includes('bottom')` on the interaction-type string. -/
def touchesBottom : InteractionType → Bool
  | resizeBottom | resizeBottomLeft | resizeBottomRight => true
  | _ => false

/-- `type.includes('top')` on the interaction-type string. -/
def touchesTop : InteractionType → Bool
  | resizeTop | resizeTopLeft | resizeTopRight => true
  | _ => false

end InteractionType

/-- The `maxW`/`maxH` prop: a pixel count, the `'viewport'` sentinel, or
the default `Infinity`. -/
inductive MaxBound where
  | px (m : Int)
  | viewport
  | inf
  deriving DecidableEq, Repr

/-- `maxW === 'viewport' ? viewportSize.width : maxW`.  `none` models
`Infinity` (no effective upper bound: `Math.min (v, Infinity) = v` and
`v > Infinity` is always false). -/
def MaxBound.effective : MaxBound → Int → Option Int
  | .px m, _ => some m
  | .viewport, vdim => some vdim
  | .inf, _ => none

/-- Size-relevant configuration props of the component:
`minW`, `minH`, `maxW`, `maxH`, `boundary`. -/
structure Bounds where
  minW : Int
  minH : Int
  maxW : MaxBound
  maxH : MaxBound
  boundary : Bool
  deriving DecidableEq, Repr

/-- The `viewportSize` state (`window.innerWidth` × `window.innerHeight`). -/
structure Viewport where
  width : Int
  height : Int
  deriving DecidableEq, Repr

/-- A `w`/`h` size state value: pixels, `'auto'` or `'full'`. -/
inductive SizeValue where
  | px (n : Int)
  | auto
  | full
  deriving DecidableEq, Repr

/-- `typeof v === 'number'`. -/
def SizeValue.isNumber : SizeValue → Bool
  | .px _ => true
  | _ => false

/-- The component's geometry state: the `position` and `size` `useState`
pairs. -/
structure WindowState where
  posX : Int
  posY : Int
  sizeW : SizeValue
  sizeH : SizeValue
  deriving DecidableEq, Repr

/-- `interactionRef.current` while an interaction is active. -/
structure InteractionState where
  type : InteractionType
  startX : Int
  startY : Int
  initialWidth : Int
  initialHeight : Int
  initialX : Int
  initialY : Int
  deriving DecidableEq, Repr

/-- `Math.max(minDim, Math.min(v, effectiveMax))`, with `none` standing
for the absent (`Infinity`) upper bound. -/
def clampDim (mn : Int) (v : Int) : Option Int → Int
  | some m => max mn (min v m)
  | none => max mn v

/-- The `type === 'drag'` branch of `handleInteractionMove`:
`newX = initialX + dx`, then if `boundary` clamp into
`[0, viewport - initialDim]` per axis. -/
def dragMove (cfg : Bounds) (vp : Viewport) (ix iy iw ih dx dy : Int) :
    Int × Int :=
  let newX := ix + dx
  let newY := iy + dy
  if cfg.boundary then
    (max 0 (min newX (vp.width - iw)), max 0 (min newY (vp.height - ih)))
  else
    (newX, newY)

/-- One axis of the `if (boundary)` block in the resize branch:
negative position folds its overflow into the dimension and is zeroed,
then the dimension is shrunk if the far edge exceeds the viewport, then
the minimum is re-applied.  Returns (position, dimension). -/
def boundaryAdjust (mn vpDim pos dim : Int) : Int × Int :=
  let s1 := if pos < 0 then (0, dim + pos) else (pos, dim)
  let d2 := if s1.1 + s1.2 > vpDim then vpDim - s1.1 else s1.2
  (s1.1, max mn d2)

/-- The `type.startsWith('resize')` branch of `handleInteractionMove`.
Returns ((newX, newY), (constrainedW, constrainedH)). -/
def resizeMove (cfg : Bounds) (vp : Viewport) (t : InteractionType)
    (ix iy iw ih dx dy : Int) : (Int × Int) × (Int × Int) :=
  let newWidth := if t.touchesLeft then iw - dx
                  else if t.touchesRight then iw + dx else iw
  let newHeight := if t.touchesTop then ih - dy
                   else if t.touchesBottom then ih + dy else ih
  let constrainedW := clampDim cfg.minW newWidth (cfg.maxW.effective vp.width)
  let constrainedH := clampDim cfg.minH newHeight (cfg.maxH.effective vp.height)
  let newX := if t.touchesLeft then ix + (iw - constrainedW) else ix
  let newY := if t.touchesTop then iy + (ih - constrainedH) else iy
  if cfg.boundary then
    let bx := boundaryAdjust cfg.minW vp.width newX constrainedW
    let by_ := boundaryAdjust cfg.minH vp.height newY constrainedH
    ((bx.1, by_.1), (bx.2, by_.2))
  else
    ((newX, newY), (constrainedW, constrainedH))

/-- `handleInteractionMove`: no-op without a session; a drag session
writes only `position`; a resize session writes both `size` (numeric) and
`position`.  `clientX`/`clientY` are the incoming pointer coordinates. -/
def handleInteractionMove (cfg : Bounds) (vp : Viewport)
    (session : Option InteractionState) (clientX clientY : Int)
    (st : WindowState) : WindowState :=
  match session with
  | none => st
  | some s =>
    let dx := clientX - s.startX
    let dy := clientY - s.startY
    if s.type = .drag then
      let p := dragMove cfg vp s.initialX s.initialY s.initialWidth
        s.initialHeight dx dy
      { st with posX := p.1, posY := p.2 }
    else
      let r := resizeMove cfg vp s.type s.initialX s.initialY s.initialWidth
        s.initialHeight dx dy
      { posX := r.1.1, posY := r.1.2, sizeW := .px r.2.1, sizeH := .px r.2.2 }

/-! ### Interaction start (`handleInteractionStart`) -/

/-- The facts about the pointer-down target that the start handler
inspects: its tag name, `isContentEditable`, and whether
`target.closest('a[href], button')` finds an ancestor (or self). -/
structure TargetInfo where
  tagName : String
  isContentEditable : Bool
  closestAnchorHrefOrButton : Bool
  deriving DecidableEq, Repr

/-- `const interactiveTags = ['INPUT', 'TEXTAREA', 'BUTTON', 'SELECT', 'A']`. -/
def interactiveTags : List String :=
  ["INPUT", "TEXTAREA", "BUTTON", "SELECT", "A"]

/-- The drag-rejection test:
`interactiveTags.includes(target.tagName) || target.isContentEditable ||
target.closest('a[href], button')`. -/
def isInteractiveTarget (t : TargetInfo) : Bool :=
  interactiveTags.contains t.tagName || t.isContentEditable ||
    t.closestAnchorHrefOrButton

/-- `handleInteractionStart`: returns the created session, or `none` when
the handler returns early (drag on an interactive element, or
`windowRef.current` not yet measurable).  `measured` is
`(offsetWidth, offsetHeight)` of the rendered element when present. -/
def handleInteractionStart (ty : InteractionType) (t : TargetInfo)
    (measured : Option (Int × Int)) (posX posY clientX clientY : Int) :
    Option InteractionState :=
  if ty = .drag ∧ isInteractiveTarget t then none
  else
    match measured with
    | none => none
    | some (ow, oh) =>
      some ⟨ty, clientX, clientY, ow, oh, posX, posY⟩

/-! ### Touch-hold drag disambiguation -/

/-- `const MOVEMENT_THRESHOLD = 10`. -/
def MOVEMENT_THRESHOLD : Int := 10

/-- The touch-hold pre-stage state: `touchStartCoordsRef.current` and
whether the 200 ms hold timer is still pending. -/
structure TouchHold where
  coords : Option (Int × Int)
  timerActive : Bool
  deriving DecidableEq, Repr

/-- `handleDragTouchStart`: record the touch origin and arm the hold
timer. -/
def handleDragTouchStart (x y : Int) : TouchHold :=
  ⟨some (x, y), true⟩

/-- `cancelDragHold`: clear the timer and the stored coordinates. -/
def cancelDragHold : TouchHold :=
  ⟨none, false⟩

/-- `handleDragTouchMove`: a no-op once the coordinates are cleared;
otherwise cancels the hold when either axis moved strictly more than
`MOVEMENT_THRESHOLD` from the touch origin. -/
def handleDragTouchMove (s : TouchHold) (x y : Int) : TouchHold :=
  match s.coords with
  | none => s
  | some (sx, sy) =>
    if |x - sx| > MOVEMENT_THRESHOLD ∨ |y - sy| > MOVEMENT_THRESHOLD then
      cancelDragHold
    else
      s

/-- Fold a sequence of touch-move points (all arriving before the hold
delay elapses) through `handleDragTouchMove`. -/
def touchMoves (s : TouchHold) (ms : List (Int × Int)) : TouchHold :=
  ms.foldl (fun a m => handleDragTouchMove a m.1 m.2) s

/-- The session that exists once the hold delay elapses: the timer fires
`handleInteractionStart(e, 'drag')` only if it was not cancelled. -/
def sessionAfterHold (s : TouchHold) (t : TargetInfo)
    (measured : Option (Int × Int)) (posX posY clientX clientY : Int) :
    Option InteractionState :=
  if s.timerActive then
    handleInteractionStart .drag t measured posX posY clientX clientY
  else
    none

/-! ### Reconcile effect (viewport / bounds changes) -/

/-- The max-size clamp of the reconcile effect on one dimension:
`if (typeof newW === 'number' && newW > effectiveMaxW) { newW = effectiveMaxW;
sizeNeedsUpdate = true }`.  Returns the new value and the update flag. -/
def reconcileDim (v : SizeValue) : Option Int → SizeValue × Bool
  | some m =>
    match v with
    | .px n => if n > m then (.px m, true) else (.px n, false)
    | v => (v, false)
  | none => (v, false)

/-- The boundary clamp of the reconcile effect on one axis, using the
rendered dimension `odim` (`offsetWidth`/`offsetHeight`): clamp below at
0, then pull back if the far edge exceeds the viewport.  Returns the new
position and the `posNeedsUpdate` contribution. -/
def reconcileAxis (vpDim odim pos : Int) : Int × Bool :=
  let s1 := if pos < 0 then ((0 : Int), true) else (pos, false)
  if s1.1 + odim > vpDim then (vpDim - odim, true) else s1

/-- The reconcile `useEffect` (active when no interaction is running):
max-size clamp on numeric dimensions, then boundary position clamp when
`boundary` is set.  Returns the resulting state together with the
`posNeedsUpdate` and `sizeNeedsUpdate` flags (a flag set to `false` means
the corresponding `setState` is not called). -/
def reconcile (cfg : Bounds) (vp : Viewport) (ow oh : Int)
    (st : WindowState) : WindowState × Bool × Bool :=
  let rw := reconcileDim st.sizeW (cfg.maxW.effective vp.width)
  let rh := reconcileDim st.sizeH (cfg.maxH.effective vp.height)
  let px := if cfg.boundary then reconcileAxis vp.width ow st.posX
            else (st.posX, false)
  let py := if cfg.boundary then reconcileAxis vp.height oh st.posY
            else (st.posY, false)
  (⟨px.1, py.1, rw.1, rh.1⟩, px.2 || py.2, rw.2 || rh.2)

/-! ### Style resolver (`getColorValue`) -/

/-- The Tailwind-compatible color table (`colorMap`), name → RGB triple
as the space-separated string stored by the source. -/
def colorMap : List (String × String) :=
  [("red-50", "254 242 242"), ("red-100", "254 226 226"),
   ("red-200", "252 165 165"), ("red-300", "248 113 113"),
   ("red-400", "239 68 68"), ("red-500", "239 68 68"),
   ("red-600", "220 38 38"), ("red-700", "185 28 28"),
   ("red-800", "153 27 27"), ("red-900", "127 29 29"),
   ("blue-50", "239 246 255"), ("blue-100", "219 234 254"),
   ("blue-200", "191 219 254"), ("blue-300", "147 197 253"),
   ("blue-400", "96 165 250"), ("blue-500", "59 130 246"),
   ("blue-600", "37 99 235"), ("blue-700", "29 78 216"),
   ("blue-800", "30 64 175"), ("blue-900", "30 58 138"),
   ("green-50", "240 253 244"), ("green-100", "220 252 231"),
   ("green-200", "187 247 208"), ("green-300", "134 239 172"),
   ("green-400", "74 222 128"), ("green-500", "34 197 94"),
   ("green-600", "22 163 74"), ("green-700", "21 128 61"),
   ("green-800", "22 101 52"), ("green-900", "20 83 45"),
   ("yellow-50", "254 252 232"), ("yellow-100", "254 249 195"),
   ("yellow-200", "254 240 138"), ("yellow-300", "253 224 71"),
   ("yellow-400", "250 204 21"), ("yellow-500", "234 179 8"),
   ("yellow-600", "202 138 4"), ("yellow-700", "161 98 7"),
   ("yellow-800", "133 77 14"), ("yellow-900", "113 63 18"),
   ("purple-50", "250 245 255"), ("purple-100", "243 232 255"),
   ("purple-200", "233 213 255"), ("purple-300", "196 181 253"),
   ("purple-400", "167 139 250"), ("purple-500", "139 92 246"),
   ("purple-600", "124 58 237"), ("purple-700", "109 40 217"),
   ("purple-800", "91 33 182"), ("purple-900", "76 29 149"),
   ("pink-50", "253 242 248"), ("pink-100", "252 231 243"),
   ("pink-200", "251 207 232"), ("pink-300", "249 168 212"),
   ("pink-400", "244 114 182"), ("pink-500", "236 72 153"),
   ("pink-600", "219 39 119"), ("pink-700", "190 24 93"),
   ("pink-800", "157 23 77"), ("pink-900", "131 24 67"),
   ("indigo-50", "238 242 255"), ("indigo-100", "224 231 255"),
   ("indigo-200", "199 210 254"), ("indigo-300", "165 180 252"),
   ("indigo-400", "129 140 248"), ("indigo-500", "99 102 241"),
   ("indigo-600", "79 70 229"), ("indigo-700", "67 56 202"),
   ("indigo-800", "55 48 163"), ("indigo-900", "49 46 129"),
   ("gray-50", "249 250 251"), ("gray-100", "243 244 246"),
   ("gray-200", "229 231 235"), ("gray-300", "209 213 219"),
   ("gray-400", "156 163 175"), ("gray-500", "107 114 128"),
   ("gray-600", "75 85 99"), ("gray-700", "55 65 81"),
   ("gray-800", "31 41 55"), ("gray-900", "17 24 39"),
   ("slate-50", "248 250 252"), ("slate-100", "241 245 249"),
   ("slate-200", "226 232 240"), ("slate-300", "203 213 225"),
   ("slate-400", "148 163 184"), ("slate-500", "100 116 139"),
   ("slate-600", "71 85 105"), ("slate-700", "51 65 85"),
   ("slate-800", "30 41 59"), ("slate-900", "15 23 42"),
   ("zinc-50", "250 250 250"), ("zinc-100", "244 244 245"),
   ("zinc-200", "228 228 231"), ("zinc-300", "212 212 216"),
   ("zinc-400", "161 161 170"), ("zinc-500", "113 113 122"),
   ("zinc-600", "82 82 91"), ("zinc-700", "63 63 70"),
   ("zinc-800", "39 39 42"), ("zinc-900", "24 24 27"),
   ("emerald-50", "236 253 245"), ("emerald-100", "209 250 229"),
   ("emerald-200", "167 243 208"), ("emerald-300", "110 231 183"),
   ("emerald-400", "52 211 153"), ("emerald-500", "16 185 129"),
   ("emerald-600", "5 150 105"), ("emerald-700", "4 120 87"),
   ("emerald-800", "6 95 70"), ("emerald-900", "6 78 59")]

/-- `c.split('/')`: split a string at every occurrence of a separator
character (an empty string yields `[""]`, exactly as in JavaScript). -/
def jsSplit (sep : Char) (s : String) : List String :=
  (s.data.splitOn sep).map List.asString

/-- `parseInt(s, 10)` restricted to what the token grammar supplies:
the value of the leading base-10 digit run, `none` when there is none
(modelling `NaN`). -/
def jsParseInt (s : String) : Option Nat :=
  let ds := s.toList.takeWhile Char.isDigit
  if ds.isEmpty then none
  else some (ds.foldl (fun a c => a * 10 + (c.toNat - 48)) 0)

/-- The resolved color: the RGB triple string from the table and the
alpha channel `parseInt(o, 10) / 100` (`none` models `NaN` from a
non-numeric opacity part). -/
structure ResolvedColor where
  rgb : String
  alpha : Option ℚ
  deriving DecidableEq, Repr

/-- Member names of `Object.prototype`, inherited by every JavaScript
object literal.  Indexing `colorMap` with one of these (none is an own
entry of the table) does not yield `undefined`: it yields the inherited
member, a truthy function (or, for `__proto__`, an object). -/
def objectPrototypeKeys : List String :=
  ["constructor", "hasOwnProperty", "isPrototypeOf", "propertyIsEnumerable",
   "toLocaleString", "toString", "valueOf", "__proto__",
   "__defineGetter__", "__defineSetter__", "__lookupGetter__",
   "__lookupSetter__"]

/-- The value observed by `colorMap[n]` on the object literal: an own
(string-valued) entry, a truthy non-string member inherited from
`Object.prototype`, or `undefined`. -/
inductive JsProp where
  | str (s : String)
  | inherited
  | undefined
  deriving DecidableEq, Repr

/-- JavaScript property access `own[key]` on an object literal whose own
entries are string-valued: an own entry wins, otherwise the prototype
chain is consulted before yielding `undefined`. -/
def jsIndex (own : List (String × String)) (key : String) : JsProp :=
  match own.lookup key with
  | some v => .str v
  | none =>
    if objectPrototypeKeys.contains key then .inherited else .undefined

/-- The outcome of a `getColorValue` call: returned `undefined` (no
color specified), returned a resolved rgba value, or threw a
`TypeError`. -/
inductive ColorResult where
  | undef
  | ok (c : ResolvedColor)
  | typeError
  deriving DecidableEq, Repr

/-- Whether the call returned a resolved rgba value. -/
def ColorResult.isOk : ColorResult → Bool
  | .ok _ => true
  | _ => false

/-- `getColorValue`: `undefined` on the empty string; otherwise split on
`'/'`, default the opacity part to `'100'`, and evaluate
`colorMap[n] || '107 114 128'`: an own entry (if truthy, i.e.
non-empty) is the RGB string, an absent key is falsy `undefined` so the
fallback string is used, but a name inherited from `Object.prototype`
is a truthy non-string, the fallback is skipped, and the subsequent
`rgb.split(' ')` throws a `TypeError`.  The alpha channel is
`parseInt(o, 10) / 100` (`none` models `NaN`). -/
def getColorValue (c : String) : ColorResult :=
  if c = "" then .undef
  else
    let parts := jsSplit '/' c
    let n := parts.headD ""
    let o := (parts.get? 1).getD "100"
    match jsIndex colorMap n with
    | .str v =>
      .ok ⟨if v = "" then "107 114 128" else v,
        (jsParseInt o).map (fun k => (k : ℚ) / 100)⟩
    | .inherited => .typeError
    | .undefined =>
      .ok ⟨"107 114 128", (jsParseInt o).map (fun k => (k : ℚ) / 100)⟩

/-! ### Spec-side description of the boundary pass order (§4.1 step 4) -/

/-- Spec phase 1: a negative tentative position reduces the dimension by
the overflow amount and is then zeroed. -/
def specPosClamp (pos dim : Int) : Int × Int :=
  if pos < 0 then (0, dim + pos) else (pos, dim)

/-- Spec phase 2: if the far edge exceeds the viewport, shrink the
dimension to fit. -/
def specFitDim (vpDim pos dim : Int) : Int :=
  if pos + dim > vpDim then vpDim - pos else dim

/-- Spec phase 3: re-apply the minimum bound as the final floor. -/
def specMinFloor (mn dim : Int) : Int :=
  max mn dim

/-! ### Helper lemmas -/

theorem handleInteractionMove_no_session (cfg : Bounds) (vp : Viewport)
    (cx cy : Int) (st : WindowState) :
    handleInteractionMove cfg vp none cx cy st = st := rfl

theorem clampDim_lower (mn v : Int) (mx : Option Int) :
    mn ≤ clampDim mn v mx := by
  cases mx <;> simp only [clampDim] <;> omega

theorem clampDim_upper (mn v m : Int) (hmn : mn ≤ m) :
    clampDim mn v (some m) ≤ m := by
  simp only [clampDim]
  omega

theorem boundaryAdjust_lower (mn vd p d : Int) :
    mn ≤ (boundaryAdjust mn vd p d).2 := by
  simp only [boundaryAdjust]
  split_ifs <;> simp

theorem boundaryAdjust_upper (mn vd p d m : Int) (hd : d ≤ m)
    (hmn : mn ≤ m) : (boundaryAdjust mn vd p d).2 ≤ m := by
  simp only [boundaryAdjust]
  split_ifs <;> simp at * <;> omega

theorem resizeMove_w_lower (cfg : Bounds) (vp : Viewport)
    (t : InteractionType) (ix iy iw ih dx dy : Int) :
    cfg.minW ≤ (resizeMove cfg vp t ix iy iw ih dx dy).2.1 := by
  simp only [resizeMove]
  cases hb : cfg.boundary <;>
    simp only [hb, if_true, if_false, Bool.false_eq_true, Bool.true_eq_false]
  · exact clampDim_lower _ _ _
  · exact boundaryAdjust_lower _ _ _ _

theorem resizeMove_h_lower (cfg : Bounds) (vp : Viewport)
    (t : InteractionType) (ix iy iw ih dx dy : Int) :
    cfg.minH ≤ (resizeMove cfg vp t ix iy iw ih dx dy).2.2 := by
  simp only [resizeMove]
  cases hb : cfg.boundary <;>
    simp only [hb, if_true, if_false, Bool.false_eq_true, Bool.true_eq_false]
  · exact clampDim_lower _ _ _
  · exact boundaryAdjust_lower _ _ _ _

theorem resizeMove_w_upper (cfg : Bounds) (vp : Viewport)
    (t : InteractionType) (ix iy iw ih dx dy m : Int)
    (hm : cfg.maxW.effective vp.width = some m) (hmn : cfg.minW ≤ m) :
    (resizeMove cfg vp t ix iy iw ih dx dy).2.1 ≤ m := by
  simp only [resizeMove, hm]
  cases hb : cfg.boundary <;>
    simp only [hb, if_true, if_false, Bool.false_eq_true, Bool.true_eq_false]
  · exact clampDim_upper _ _ _ hmn
  · exact boundaryAdjust_upper _ _ _ _ _ (clampDim_upper _ _ _ hmn) hmn

theorem resizeMove_h_upper (cfg : Bounds) (vp : Viewport)
    (t : InteractionType) (ix iy iw ih dx dy m : Int)
    (hm : cfg.maxH.effective vp.height = some m) (hmn : cfg.minH ≤ m) :
    (resizeMove cfg vp t ix iy iw ih dx dy).2.2 ≤ m := by
  simp only [resizeMove, hm]
  cases hb : cfg.boundary <;>
    simp only [hb, if_true, if_false, Bool.false_eq_true, Bool.true_eq_false]
  · exact clampDim_upper _ _ _ hmn
  · exact boundaryAdjust_upper _ _ _ _ _ (clampDim_upper _ _ _ hmn) hmn

/-! ### Claim theorems -/

/-- C2 (counterexample): the claim `0 ≤ x ≤ viewport.width - width` for
every boundary-enabled drag move fails when the captured width exceeds
the viewport width: with viewport 400×300, start width 500 and a small
positive delta, the resulting `x` is 0, which is not `≤ 400 - 500`. -/
theorem drag_confine_claim_false :
    ¬ ((handleInteractionMove ⟨1, 1, .inf, .inf, true⟩ ⟨400, 300⟩
        (some ⟨.drag, 0, 0, 500, 100, 10, 10⟩) 50 40
        ⟨10, 10, .px 500, .px 100⟩).posX ≤ 400 - 500) := by decide

/-- C2 (amended): for every drag move with boundary enabled whose
captured start width/height fit inside the viewport, the resulting
position satisfies `0 ≤ x ≤ viewport.width - width` and
`0 ≤ y ≤ viewport.height - height`, for any delta magnitude. -/
theorem drag_confine_within_viewport (cfg : Bounds) (vp : Viewport)
    (s : InteractionState) (cx cy : Int) (st : WindowState)
    (hb : cfg.boundary = true) (ht : s.type = .drag)
    (hw : s.initialWidth ≤ vp.width) (hh : s.initialHeight ≤ vp.height) :
    0 ≤ (handleInteractionMove cfg vp (some s) cx cy st).posX ∧
    (handleInteractionMove cfg vp (some s) cx cy st).posX ≤
      vp.width - s.initialWidth ∧
    0 ≤ (handleInteractionMove cfg vp (some s) cx cy st).posY ∧
    (handleInteractionMove cfg vp (some s) cx cy st).posY ≤
      vp.height - s.initialHeight := by
  simp only [handleInteractionMove, ht, if_true, dragMove, hb, reduceIte]
  refine ⟨?_, ?_, ?_, ?_⟩ <;> simp <;> omega

/-- C2 witness: a drag of delta (4990, −5010) from (10, 10) with a
200×100 box in a 400×300 viewport lands inside the confined range. -/
theorem drag_confine_within_viewport_witness :
    0 ≤ (handleInteractionMove ⟨1, 1, .inf, .inf, true⟩ ⟨400, 300⟩
        (some ⟨.drag, 0, 0, 200, 100, 10, 10⟩) 5000 (-5000)
        ⟨10, 10, .px 200, .px 100⟩).posX ∧
    (handleInteractionMove ⟨1, 1, .inf, .inf, true⟩ ⟨400, 300⟩
        (some ⟨.drag, 0, 0, 200, 100, 10, 10⟩) 5000 (-5000)
        ⟨10, 10, .px 200, .px 100⟩).posX ≤ 400 - 200 ∧
    0 ≤ (handleInteractionMove ⟨1, 1, .inf, .inf, true⟩ ⟨400, 300⟩
        (some ⟨.drag, 0, 0, 200, 100, 10, 10⟩) 5000 (-5000)
        ⟨10, 10, .px 200, .px 100⟩).posY ∧
    (handleInteractionMove ⟨1, 1, .inf, .inf, true⟩ ⟨400, 300⟩
        (some ⟨.drag, 0, 0, 200, 100, 10, 10⟩) 5000 (-5000)
        ⟨10, 10, .px 200, .px 100⟩).posY ≤ 300 - 100 :=
  drag_confine_within_viewport ⟨1, 1, .inf, .inf, true⟩ ⟨400, 300⟩
    ⟨.drag, 0, 0, 200, 100, 10, 10⟩ 5000 (-5000)
    ⟨10, 10, .px 200, .px 100⟩ rfl rfl (by decide) (by decide)

/-- C3: with no boundary clamp in play, a left-touching resize keeps the
right edge fixed (`newX + newWidth = startX + startWidth`) and a
top-touching resize keeps the bottom edge fixed, for any delta. -/
theorem left_top_resize_fixed_edge (cfg : Bounds) (vp : Viewport)
    (t : InteractionType) (ix iy iw ih dx dy : Int)
    (hb : cfg.boundary = false) :
    (t.touchesLeft = true →
      (resizeMove cfg vp t ix iy iw ih dx dy).1.1 +
        (resizeMove cfg vp t ix iy iw ih dx dy).2.1 = ix + iw) ∧
    (t.touchesTop = true →
      (resizeMove cfg vp t ix iy iw ih dx dy).1.2 +
        (resizeMove cfg vp t ix iy iw ih dx dy).2.2 = iy + ih) := by
  constructor <;> intro htc <;>
    simp only [resizeMove, hb, htc, Bool.false_eq_true, if_false, if_true,
      reduceIte] <;>
    omega

/-- C3 witness: a left resize by dx = −50 from x = 10, width = 300 keeps
x + width = 310. -/
theorem left_top_resize_fixed_edge_witness :
    (resizeMove ⟨1, 1, .inf, .inf, false⟩ ⟨800, 600⟩ .resizeLeft
      10 20 300 200 (-50) 0).1.1 +
    (resizeMove ⟨1, 1, .inf, .inf, false⟩ ⟨800, 600⟩ .resizeLeft
      10 20 300 200 (-50) 0).2.1 = 10 + 300 :=
  (left_top_resize_fixed_edge ⟨1, 1, .inf, .inf, false⟩ ⟨800, 600⟩
    .resizeLeft 10 20 300 200 (-50) 0 rfl).1 rfl

/-- C7: a pointer-down of kind drag on an interactive target creates no
session, and with no session every subsequent move leaves the state
(including the position) unchanged. -/
theorem interactive_target_blocks_drag (t : TargetInfo)
    (measured : Option (Int × Int)) (ipx ipy cx cy : Int)
    (hi : isInteractiveTarget t = true) :
    handleInteractionStart .drag t measured ipx ipy cx cy = none ∧
    ∀ (cfg : Bounds) (vp : Viewport) (cx2 cy2 : Int) (st : WindowState),
      handleInteractionMove cfg vp
        (handleInteractionStart .drag t measured ipx ipy cx cy) cx2 cy2 st =
        st := by
  have h1 : handleInteractionStart .drag t measured ipx ipy cx cy = none := by
    simp [handleInteractionStart, hi]
  exact ⟨h1, fun cfg vp cx2 cy2 st => by
    rw [h1]
    exact handleInteractionMove_no_session cfg vp cx2 cy2 st⟩

/-- C7 witness: a drag starting on an INPUT element yields no session. -/
theorem interactive_target_blocks_drag_witness :
    handleInteractionStart .drag ⟨"INPUT", false, false⟩ (some (300, 200))
      10 20 5 6 = none :=
  (interactive_target_blocks_drag ⟨"INPUT", false, false⟩ (some (300, 200))
    10 20 5 6 (by decide)).1

/-- C8: a move in a drag session writes only the position: the size state
after the move equals the size state before it, for any delta and any
boundary setting. -/
theorem drag_leaves_size_unchanged (cfg : Bounds) (vp : Viewport)
    (s : InteractionState) (cx cy : Int) (st : WindowState)
    (ht : s.type = .drag) :
    (handleInteractionMove cfg vp (some s) cx cy st).sizeW = st.sizeW ∧
    (handleInteractionMove cfg vp (some s) cx cy st).sizeH = st.sizeH := by
  simp [handleInteractionMove, ht]

/-- C8 witness: a concrete boundary-enabled drag leaves an auto×200px
size untouched. -/
theorem drag_leaves_size_unchanged_witness :
    (handleInteractionMove ⟨1, 1, .viewport, .px 500, true⟩ ⟨800, 600⟩
      (some ⟨.drag, 3, 4, 250, 150, 40, 50⟩) 90 (-70)
      ⟨40, 50, .auto, .px 200⟩).sizeW = SizeValue.auto ∧
    (handleInteractionMove ⟨1, 1, .viewport, .px 500, true⟩ ⟨800, 600⟩
      (some ⟨.drag, 3, 4, 250, 150, 40, 50⟩) 90 (-70)
      ⟨40, 50, .auto, .px 200⟩).sizeH = SizeValue.px 200 :=
  drag_leaves_size_unchanged ⟨1, 1, .viewport, .px 500, true⟩ ⟨800, 600⟩
    ⟨.drag, 3, 4, 250, 150, 40, 50⟩ 90 (-70) ⟨40, 50, .auto, .px 200⟩ rfl

/-- C10: a boundary-enabled drag move computes the position as
`max 0 (min (startPos + delta) (viewport - startDim))` componentwise, and
when the captured dimension exceeds the viewport (upper bound negative)
the zero floor wins: the position is pinned to exactly 0. -/
theorem drag_boundary_zero_floor (cfg : Bounds) (vp : Viewport)
    (s : InteractionState) (cx cy : Int) (st : WindowState)
    (hb : cfg.boundary = true) (ht : s.type = .drag) :
    (handleInteractionMove cfg vp (some s) cx cy st).posX =
      max 0 (min (s.initialX + (cx - s.startX))
        (vp.width - s.initialWidth)) ∧
    (handleInteractionMove cfg vp (some s) cx cy st).posY =
      max 0 (min (s.initialY + (cy - s.startY))
        (vp.height - s.initialHeight)) ∧
    (vp.width - s.initialWidth < 0 →
      (handleInteractionMove cfg vp (some s) cx cy st).posX = 0) ∧
    (vp.height - s.initialHeight < 0 →
      (handleInteractionMove cfg vp (some s) cx cy st).posY = 0) := by
  simp only [handleInteractionMove, ht, if_true, dragMove, hb, reduceIte]
  refine ⟨by simp, by simp, ?_, ?_⟩ <;> intro h <;> simp <;> omega

/-- C10 witness: a 500-wide box in a 400-wide viewport is pinned to
x = 0 by any boundary-enabled drag move. -/
theorem drag_boundary_zero_floor_witness :
    (handleInteractionMove ⟨1, 1, .inf, .inf, true⟩ ⟨400, 300⟩
      (some ⟨.drag, 0, 0, 500, 100, 10, 10⟩) 50 40
      ⟨10, 10, .px 500, .px 100⟩).posX = 0 :=
  (drag_boundary_zero_floor ⟨1, 1, .inf, .inf, true⟩ ⟨400, 300⟩
    ⟨.drag, 0, 0, 500, 100, 10, 10⟩ 50 40
    ⟨10, 10, .px 500, .px 100⟩ rfl rfl).2.2.1 (by decide)

/-- C1: every resize move (any of the 8 directions, any delta) produces
a numeric size whose width lies in `[minW, effectiveMaxW]` and height in
`[minH, effectiveMaxH]` (precondition: the minimum does not exceed the
effective maximum, which resolves `'viewport'` against the current
viewport); and the concrete scenario: a bottom-right resize of
(−1000, −1000) from a 300×200 box with minima 50 yields exactly 50×50
with the position unchanged. -/
theorem resize_size_within_bounds (cfg : Bounds) (vp : Viewport)
    (s : InteractionState) (cx cy : Int) (st : WindowState)
    (hd : ¬ s.type = .drag)
    (hW : ∀ m, cfg.maxW.effective vp.width = some m → cfg.minW ≤ m)
    (hH : ∀ m, cfg.maxH.effective vp.height = some m → cfg.minH ≤ m) :
    ((handleInteractionMove cfg vp (some s) cx cy st).sizeW =
      .px (resizeMove cfg vp s.type s.initialX s.initialY s.initialWidth
        s.initialHeight (cx - s.startX) (cy - s.startY)).2.1 ∧
     (handleInteractionMove cfg vp (some s) cx cy st).sizeH =
      .px (resizeMove cfg vp s.type s.initialX s.initialY s.initialWidth
        s.initialHeight (cx - s.startX) (cy - s.startY)).2.2) ∧
    (cfg.minW ≤ (resizeMove cfg vp s.type s.initialX s.initialY
        s.initialWidth s.initialHeight (cx - s.startX) (cy - s.startY)).2.1 ∧
     ∀ m, cfg.maxW.effective vp.width = some m →
      (resizeMove cfg vp s.type s.initialX s.initialY s.initialWidth
        s.initialHeight (cx - s.startX) (cy - s.startY)).2.1 ≤ m) ∧
    (cfg.minH ≤ (resizeMove cfg vp s.type s.initialX s.initialY
        s.initialWidth s.initialHeight (cx - s.startX) (cy - s.startY)).2.2 ∧
     ∀ m, cfg.maxH.effective vp.height = some m →
      (resizeMove cfg vp s.type s.initialX s.initialY s.initialWidth
        s.initialHeight (cx - s.startX) (cy - s.startY)).2.2 ≤ m) ∧
    (∀ (ix iy : Int) (st2 : WindowState),
      handleInteractionMove ⟨50, 50, .inf, .inf, false⟩ ⟨800, 600⟩
        (some ⟨.resizeBottomRight, 0, 0, 300, 200, ix, iy⟩)
        (-1000) (-1000) st2 = ⟨ix, iy, .px 50, .px 50⟩) := by
  refine ⟨?_, ⟨resizeMove_w_lower cfg vp s.type _ _ _ _ _ _,
      fun m hm => resizeMove_w_upper cfg vp s.type _ _ _ _ _ _ m hm (hW m hm)⟩,
    ⟨resizeMove_h_lower cfg vp s.type _ _ _ _ _ _,
      fun m hm => resizeMove_h_upper cfg vp s.type _ _ _ _ _ _ m hm (hH m hm)⟩,
    ?_⟩
  · simp [handleInteractionMove, hd]
  · intro ix iy st2
    rfl

/-- C1 witness: a left resize by dx = −900 against maxW = 400 px in an
800-wide viewport stays at least the 50 px minimum. -/
theorem resize_size_within_bounds_witness :
    (50 : Int) ≤ (resizeMove ⟨50, 50, .px 400, .px 300, true⟩ ⟨800, 600⟩
      InteractionType.resizeLeft 10 20 300 200 (-900 - 0) (0 - 0)).2.1 :=
  (resize_size_within_bounds ⟨50, 50, .px 400, .px 300, true⟩ ⟨800, 600⟩
    ⟨.resizeLeft, 0, 0, 300, 200, 10, 20⟩ (-900) 0 ⟨0, 0, .auto, .auto⟩
    (by decide)
    (fun m hm => by simp [MaxBound.effective] at hm; subst hm; decide)
    (fun m hm => by simp [MaxBound.effective] at hm; subst hm; decide)).2.1.1

/-- C4: the boundary pass of a resize runs in the spec's order — fold a
negative position's overflow into the dimension and zero the position,
then shrink the dimension if the far edge exceeds the viewport, then
re-apply the minimum as the final floor — and consequently the final
width/height of every boundary-enabled resize is never below
`minW`/`minH`, even when that leaves the box exceeding the viewport. -/
theorem resize_boundary_order :
    (∀ mn vd p d : Int,
      boundaryAdjust mn vd p d =
        ((specPosClamp p d).1,
          specMinFloor mn
            (specFitDim vd (specPosClamp p d).1 (specPosClamp p d).2))) ∧
    (∀ (cfg : Bounds) (vp : Viewport) (t : InteractionType)
        (ix iy iw ih dx dy : Int), cfg.boundary = true →
      cfg.minW ≤ (resizeMove cfg vp t ix iy iw ih dx dy).2.1 ∧
      cfg.minH ≤ (resizeMove cfg vp t ix iy iw ih dx dy).2.2) := by
  constructor
  · intro mn vd p d
    rfl
  · intro cfg vp t ix iy iw ih dx dy _
    exact ⟨resizeMove_w_lower cfg vp t ix iy iw ih dx dy,
      resizeMove_h_lower cfg vp t ix iy iw ih dx dy⟩

/-- C4 witness: a boundary-enabled bottom-right resize pushed far past
the viewport still yields width at least the 60 px minimum. -/
theorem resize_boundary_order_witness :
    (60 : Int) ≤ (resizeMove ⟨60, 40, .inf, .inf, true⟩ ⟨400, 300⟩
      InteractionType.resizeBottomRight 380 290 30 20 900 900).2.1 :=
  (resize_boundary_order.2 ⟨60, 40, .inf, .inf, true⟩ ⟨400, 300⟩
    .resizeBottomRight 380 290 30 20 900 900 rfl).1

theorem reconcileDim_fix (v : SizeValue) (mx : Option Int) :
    reconcileDim (reconcileDim v mx).1 mx = ((reconcileDim v mx).1, false) := by
  cases mx with
  | none => rfl
  | some m =>
    cases v with
    | px n =>
      simp only [reconcileDim]
      split_ifs <;> simp [reconcileDim] <;> omega
    | auto => rfl
    | full => rfl

theorem reconcileAxis_fix (vd od x : Int) :
    (reconcileAxis vd od (reconcileAxis vd od x).1).1 =
      (reconcileAxis vd od x).1 := by
  simp only [reconcileAxis]
  split_ifs <;> simp_all

theorem reconcileAxis_no_write (vd od x : Int) (h : od ≤ vd) :
    (reconcileAxis vd od (reconcileAxis vd od x).1).2 = false := by
  simp only [reconcileAxis]
  split_ifs <;> simp_all <;> omega

/-- C5 (counterexample): with boundary enabled, a rendered width of 500
in a 400-wide viewport makes the reconcile pass non-quiescent: the second
application with unchanged viewport, bounds and rendered dimensions still
reports a position write (`posNeedsUpdate = true`), refuting the
"no further state writes" part of the claim. -/
theorem reconcile_claim_false :
    (reconcile ⟨1, 1, .inf, .inf, true⟩ ⟨400, 600⟩ 500 100
      (reconcile ⟨1, 1, .inf, .inf, true⟩ ⟨400, 600⟩ 500 100
        ⟨750, 10, .px 390, .px 90⟩).1).2.1 = true := by decide

/-- C5 (amended): the reconcile pass is idempotent on the produced
Geometry for all inputs, and it performs no further state writes on a
second application with unchanged viewport, bounds and rendered
dimensions provided the rendered box fits in the viewport
(`offsetWidth ≤ viewport.width` and `offsetHeight ≤ viewport.height`). -/
theorem reconcile_geometry_idempotent (cfg : Bounds) (vp : Viewport)
    (ow oh : Int) (st : WindowState) :
    (reconcile cfg vp ow oh (reconcile cfg vp ow oh st).1).1 =
      (reconcile cfg vp ow oh st).1 ∧
    (ow ≤ vp.width → oh ≤ vp.height →
      (reconcile cfg vp ow oh (reconcile cfg vp ow oh st).1).2.1 = false ∧
      (reconcile cfg vp ow oh (reconcile cfg vp ow oh st).1).2.2 = false) := by
  constructor
  · cases hb : cfg.boundary <;>
      simp [reconcile, hb, reconcileAxis_fix, reconcileDim_fix]
  · intro h1 h2
    cases hb : cfg.boundary <;>
      simp [reconcile, hb, reconcileDim_fix,
        reconcileAxis_no_write vp.width ow st.posX h1,
        reconcileAxis_no_write vp.height oh st.posY h2]

/-- C5 witness: with a 390×90 rendered box in an 800×600 viewport the
second reconcile application writes nothing. -/
theorem reconcile_geometry_idempotent_witness :
    (reconcile ⟨1, 1, .inf, .inf, true⟩ ⟨800, 600⟩ 390 90
      (reconcile ⟨1, 1, .inf, .inf, true⟩ ⟨800, 600⟩ 390 90
        ⟨750, 10, .px 390, .px 90⟩).1).2.1 = false ∧
    (reconcile ⟨1, 1, .inf, .inf, true⟩ ⟨800, 600⟩ 390 90
      (reconcile ⟨1, 1, .inf, .inf, true⟩ ⟨800, 600⟩ 390 90
        ⟨750, 10, .px 390, .px 90⟩).1).2.2 = false :=
  (reconcile_geometry_idempotent ⟨1, 1, .inf, .inf, true⟩ ⟨800, 600⟩ 390 90
    ⟨750, 10, .px 390, .px 90⟩).2 (by decide) (by decide)

theorem touchMoves_cancelled (ms : List (Int × Int)) :
    touchMoves cancelDragHold ms = cancelDragHold := by
  induction ms with
  | nil => rfl
  | cons a as ih => exact ih

theorem touchMoves_within :
    ∀ (ms : List (Int × Int)) (x y : Int),
    (∀ m ∈ ms, |m.1 - x| ≤ MOVEMENT_THRESHOLD ∧
      |m.2 - y| ≤ MOVEMENT_THRESHOLD) →
    touchMoves (handleDragTouchStart x y) ms = handleDragTouchStart x y := by
  intro ms
  induction ms with
  | nil => intro x y _; rfl
  | cons a as ih =>
    intro x y h
    have ha := h a (List.mem_cons_self a as)
    have hstep : handleDragTouchMove (handleDragTouchStart x y) a.1 a.2 =
        handleDragTouchStart x y := by
      show (if |a.1 - x| > MOVEMENT_THRESHOLD ∨ |a.2 - y| > MOVEMENT_THRESHOLD
        then cancelDragHold else handleDragTouchStart x y) =
        handleDragTouchStart x y
      rw [if_neg (not_or.mpr ⟨not_lt.mpr ha.1, not_lt.mpr ha.2⟩)]
    show touchMoves (handleDragTouchMove (handleDragTouchStart x y) a.1 a.2)
      as = handleDragTouchStart x y
    rw [hstep]
    exact ih x y (fun m hm => h m (List.mem_cons_of_mem a hm))

theorem touchMoves_beyond :
    ∀ (ms : List (Int × Int)) (x y : Int),
    (∃ m ∈ ms, |m.1 - x| > MOVEMENT_THRESHOLD ∨
      |m.2 - y| > MOVEMENT_THRESHOLD) →
    touchMoves (handleDragTouchStart x y) ms = cancelDragHold := by
  intro ms
  induction ms with
  | nil => intro x y h; simp at h
  | cons a as ih =>
    intro x y h
    show touchMoves (handleDragTouchMove (handleDragTouchStart x y) a.1 a.2)
      as = cancelDragHold
    by_cases hc : |a.1 - x| > MOVEMENT_THRESHOLD ∨ |a.2 - y| > MOVEMENT_THRESHOLD
    · have hstep : handleDragTouchMove (handleDragTouchStart x y) a.1 a.2 =
          cancelDragHold := by
        show (if |a.1 - x| > MOVEMENT_THRESHOLD ∨ |a.2 - y| > MOVEMENT_THRESHOLD
          then cancelDragHold else handleDragTouchStart x y) = cancelDragHold
        rw [if_pos hc]
      rw [hstep]
      exact touchMoves_cancelled as
    · have hstep : handleDragTouchMove (handleDragTouchStart x y) a.1 a.2 =
          handleDragTouchStart x y := by
        show (if |a.1 - x| > MOVEMENT_THRESHOLD ∨ |a.2 - y| > MOVEMENT_THRESHOLD
          then cancelDragHold else handleDragTouchStart x y) =
          handleDragTouchStart x y
        rw [if_neg hc]
      rw [hstep]
      rcases h with ⟨m, hm, hbey⟩
      rcases List.mem_cons.mp hm with heq | hm2
      · exact absurd (heq ▸ hbey) hc
      · exact ih x y ⟨m, hm2, hbey⟩

/-- C6: for a touch-initiated drag, if every touch-move point before the
hold delay stays within the 10 px threshold on both axes the hold
survives and the timer creates a drag session (given a non-interactive
target and a measurable window); if any point moves beyond the threshold
before the delay elapses, no session is ever created and any subsequent
move leaves the geometry unchanged. -/
theorem touch_hold_threshold (x y : Int) (ms : List (Int × Int))
    (t : TargetInfo) (ow oh ipx ipy : Int)
    (hni : isInteractiveTarget t = false) :
    ((∀ m ∈ ms, |m.1 - x| ≤ MOVEMENT_THRESHOLD ∧
        |m.2 - y| ≤ MOVEMENT_THRESHOLD) →
      sessionAfterHold (touchMoves (handleDragTouchStart x y) ms) t
        (some (ow, oh)) ipx ipy x y =
        some ⟨.drag, x, y, ow, oh, ipx, ipy⟩) ∧
    ((∃ m ∈ ms, |m.1 - x| > MOVEMENT_THRESHOLD ∨
        |m.2 - y| > MOVEMENT_THRESHOLD) →
      sessionAfterHold (touchMoves (handleDragTouchStart x y) ms) t
        (some (ow, oh)) ipx ipy x y = none ∧
      ∀ (cfg : Bounds) (vp : Viewport) (cx cy : Int) (st : WindowState),
        handleInteractionMove cfg vp
          (sessionAfterHold (touchMoves (handleDragTouchStart x y) ms) t
            (some (ow, oh)) ipx ipy x y) cx cy st = st) := by
  constructor
  · intro h
    rw [touchMoves_within ms x y h]
    simp [sessionAfterHold, handleDragTouchStart, handleInteractionStart, hni]
  · intro h
    rw [touchMoves_beyond ms x y h]
    refine ⟨rfl, fun cfg vp cx cy st => ?_⟩
    exact handleInteractionMove_no_session cfg vp cx cy st

/-- C6 witness: a single touch move of (25, 5) from the origin exceeds
the threshold, so the hold is cancelled and no session exists once the
delay elapses. -/
theorem touch_hold_threshold_witness :
    sessionAfterHold (touchMoves (handleDragTouchStart 0 0) [(25, 5)])
      ⟨"DIV", false, false⟩ (some (300, 200)) 10 20 0 0 = none :=
  ((touch_hold_threshold 0 0 [(25, 5)] ⟨"DIV", false, false⟩ 300 200 10 20
    (by decide)).2 ⟨(25, 5), by simp, Or.inl (by decide)⟩).1

/-- C9 (counterexample): color-token resolution is not total: the token
`"toString"` is not an own entry of the color table, yet it does not
resolve to the default fallback — indexing the object literal finds the
inherited `Object.prototype.toString` function, which is truthy, so the
`|| '107 114 128'` fallback is skipped and `rgb.split(' ')` throws a
`TypeError`. -/
theorem color_token_claim_false :
    colorMap.lookup "toString" = none ∧
    getColorValue "toString" = ColorResult.typeError := by decide

/-- C9 (amended): `"blue-500/30"` resolves to blue-500's fixed RGB
triple `59 130 246` with alpha `30/100 = 0.30`; the unknown token
`"unknown-500"` (no `/opacity` part, so the opacity defaults to
`'100'`) resolves to the documented default triple `107 114 128` with
alpha `1.0`; and every non-empty token whose name part is not an
inherited `Object.prototype` member resolves to a value — names that
collide with an inherited `Object.prototype` member (e.g. `toString`,
`__proto__`) instead throw a `TypeError`. -/
theorem color_token_resolution :
    getColorValue "blue-500/30" =
      .ok ⟨"59 130 246", some ((3 : ℚ) / 10)⟩ ∧
    getColorValue "unknown-500" = .ok ⟨"107 114 128", some 1⟩ ∧
    ∀ c : String, ¬ c = "" →
      objectPrototypeKeys.contains ((jsSplit '/' c).headD "") = false →
      (getColorValue c).isOk = true := by
  refine ⟨?_, ?_, ?_⟩
  · have hsplit : jsSplit '/' "blue-500/30" = ["blue-500", "30"] := by decide
    have h1 : jsIndex colorMap "blue-500" = .str "59 130 246" := by decide
    have h2 : jsParseInt "30" = some (30 : Nat) := by decide
    rw [getColorValue, if_neg (by decide : ¬("blue-500/30" : String) = "")]
    simp [hsplit, h1, h2]
    norm_num
  · have hsplit : jsSplit '/' "unknown-500" = ["unknown-500"] := by decide
    have h1 : jsIndex colorMap "unknown-500" = .undefined := by decide
    have h2 : jsParseInt "100" = some (100 : Nat) := by decide
    rw [getColorValue, if_neg (by decide : ¬("unknown-500" : String) = "")]
    simp [hsplit, h1, h2]
  · intro c hc hp
    have hp2 : ((jsSplit '/' c).head?.getD "") ∉ objectPrototypeKeys := by
      simpa using hp
    rw [getColorValue, if_neg hc]
    cases hl : colorMap.lookup ((jsSplit '/' c).head?.getD "") with
    | some v => simp [jsIndex, hl, ColorResult.isOk]
    | none => simp [jsIndex, hl, hp2, ColorResult.isOk]

/-- C9 witness: the non-empty token "x-1/20", whose name part is not an
Object.prototype member, resolves to a value. -/
theorem color_token_resolution_witness :
    (getColorValue "x-1/20").isOk = true :=
  color_token_resolution.2.2 "x-1/20" (by decide) (by decide)

end FlexiWindow
